import Mathlib

/-!
Shallow embedding of `src/environmental_control.py` (Bio-Stabilizing Lunar
Spray repository): the PID controller, the alert evaluator, the control
loop (`update_control`), the physical step (`simulate_step`) and the run
driver (`run_simulation`).  Python floats are modelled as rationals; the
NumPy helper `np.clip(x, lo, hi) = minimum(hi, maximum(lo, x))` is `npClip`;
Python's `%` on a positive modulus is `pymod`; Python's `int()` truncation
toward zero is `pyInt`.  Alert message strings are distinct per alert site,
so they are modelled by the tag type `AlertMsg`.
-/

namespace EnvControl

/-- NumPy clip: `np.clip(x, lo, hi) = min (max x lo) hi`. -/
def npClip (x lo hi : ℚ) : ℚ := min (max x lo) hi

/-- Python `x % m` for a positive modulus `m` (result in `[0, m)`). -/
def pymod (x m : ℚ) : ℚ := x - m * ⌊x / m⌋

/-- Python `int()` applied to a rational: truncation toward zero. -/
def pyInt (q : ℚ) : ℤ := if 0 ≤ q then ⌊q⌋ else -⌊-q⌋

/-- Embeds `ControlMode` (enum). -/
inductive ControlMode
  | STANDBY
  | CONDITIONING
  | GROWING
  | EMERGENCY
  | MAINTENANCE
deriving DecidableEq, BEq, Repr

/-- Embeds `AlertLevel` (enum). -/
inductive AlertLevel
  | NORMAL
  | WARNING
  | CRITICAL
  | EMERGENCY
deriving DecidableEq, BEq, Repr

/-- Tags for the seven distinct alert message strings built in
`check_alerts`; the formatted text is irrelevant to the claims, only the
identity of the message site matters. -/
inductive AlertMsg
  | tempCritical
  | tempWarning
  | humidityWarning
  | co2High
  | co2Low
  | o2Low
  | o2High
deriving DecidableEq, BEq, Repr

/-- Embeds the dataclass `EnvironmentalSetpoints` with its defaults. -/
structure EnvironmentalSetpoints where
  temperature_c : ℚ := 22
  temperature_tolerance : ℚ := 2
  humidity_percent : ℚ := 65
  humidity_tolerance : ℚ := 10
  co2_ppm : ℚ := 800
  co2_tolerance : ℚ := 200
  o2_percent : ℚ := 209/10
  o2_tolerance : ℚ := 1
  light_intensity_umol : ℚ := 300
  photoperiod_hours : ℚ := 16
deriving DecidableEq, Repr

/-- Embeds the dataclass `DomeSensors` with its defaults
(`PhysicalConstants.STANDARD_PRESSURE_PA = 101325`). -/
structure DomeSensors where
  temperature_c : ℚ := 20
  humidity_percent : ℚ := 60
  co2_ppm : ℚ := 400
  o2_percent : ℚ := 209/10
  light_intensity_umol : ℚ := 0
  pressure_pa : ℚ := 101325
  soil_moisture_percent : ℚ := 50
  timestamp : ℚ := 0
deriving DecidableEq, Repr

/-- Embeds the dataclass `ControlActions` with its defaults. -/
structure ControlActions where
  heater_power_percent : ℚ := 0
  cooler_active : Bool := false
  misting_rate_ml_min : ℚ := 0
  vent_position_percent : ℚ := 0
  co2_injection_rate_ml_min : ℚ := 0
  led_power_percent : ℚ := 0
  circulation_fan_rpm : ℚ := 0
deriving DecidableEq, Repr

/-- Embeds the dataclass `DomeState` with its defaults. -/
structure DomeState where
  mode : ControlMode := ControlMode.STANDBY
  sensors : DomeSensors := {}
  setpoints : EnvironmentalSetpoints := {}
  actions : ControlActions := {}
  alerts : List (AlertLevel × AlertMsg) := []
  energy_consumption_w : ℚ := 0
deriving DecidableEq, Repr

/-- Embeds the mutable state of class `PIDController`: the five constructor
parameters plus the accumulators `integral` and `last_error`. -/
structure PIDController where
  kp : ℚ
  ki : ℚ
  kd : ℚ
  output_min : ℚ := 0
  output_max : ℚ := 100
  integral : ℚ := 0
  last_error : ℚ := 0
deriving DecidableEq, Repr

/-- Embeds the body of `PIDController.__init__`: fields are stored and the
accumulators start at zero; the source performs no validation. -/
def mkPID (kp ki kd output_min output_max : ℚ) : PIDController :=
  { kp := kp, ki := ki, kd := kd,
    output_min := output_min, output_max := output_max,
    integral := 0, last_error := 0 }

/-- Embeds `PIDController.__init__` as a fallible constructor (a Python
constructor either returns the object or raises): the source raises on no
input, so every input yields `ok`. -/
def PIDController.init (kp ki kd output_min output_max : ℚ) :
    Except String PIDController :=
  Except.ok (mkPID kp ki kd output_min output_max)

/-- Embeds `PIDController.update`; returns the updated controller object
together with the returned output. -/
def PIDController.update (c : PIDController) (setpoint measured dt : ℚ) :
    PIDController × ℚ :=
  let error := setpoint - measured
  let p_term := c.kp * error
  if dt ≤ 0 then
    let i_term := c.ki * c.integral
    let d_term : ℚ := 0
    (c, npClip (p_term + i_term + d_term) c.output_min c.output_max)
  else
    let integral1 := npClip (c.integral + error * dt) (-100) 100
    let i_term := c.ki * integral1
    let d_term := c.kd * (error - c.last_error) / dt
    ({ c with integral := integral1, last_error := error },
      npClip (p_term + i_term + d_term) c.output_min c.output_max)

/-- Embeds `PIDController.reset`. -/
def PIDController.reset (c : PIDController) : PIDController :=
  { c with integral := 0, last_error := 0 }

/-- Embeds `AIEnvironmentalController.check_alerts`; each alert is the
(level, message-tag) pair appended by the corresponding branch, in source
order. -/
def check_alerts (sensors : DomeSensors) (setpoints : EnvironmentalSetpoints) :
    List (AlertLevel × AlertMsg) :=
  let temp_error := |sensors.temperature_c - setpoints.temperature_c|
  let tempAlerts : List (AlertLevel × AlertMsg) :=
    if temp_error > setpoints.temperature_tolerance * 3 then
      [(AlertLevel.CRITICAL, AlertMsg.tempCritical)]
    else if temp_error > setpoints.temperature_tolerance * 2 then
      [(AlertLevel.WARNING, AlertMsg.tempWarning)]
    else []
  let humidity_error := |sensors.humidity_percent - setpoints.humidity_percent|
  let humAlerts : List (AlertLevel × AlertMsg) :=
    if humidity_error > setpoints.humidity_tolerance * 2 then
      [(AlertLevel.WARNING, AlertMsg.humidityWarning)]
    else []
  let co2Alerts : List (AlertLevel × AlertMsg) :=
    if sensors.co2_ppm > 5000 then [(AlertLevel.CRITICAL, AlertMsg.co2High)]
    else if sensors.co2_ppm < 200 then [(AlertLevel.WARNING, AlertMsg.co2Low)]
    else []
  let o2Alerts : List (AlertLevel × AlertMsg) :=
    if sensors.o2_percent < 18 then [(AlertLevel.EMERGENCY, AlertMsg.o2Low)]
    else if sensors.o2_percent > 23 then [(AlertLevel.CRITICAL, AlertMsg.o2High)]
    else []
  tempAlerts ++ humAlerts ++ co2Alerts ++ o2Alerts

/-- Embeds the object state of class `AIEnvironmentalController` with the
fields set up by `__init__`: the dome state, the three PID controllers with
their hard-coded gains, and the history log. -/
structure AIEnvironmentalController where
  dome_id : String := "DOME-001"
  state : DomeState := {}
  temp_controller : PIDController := mkPID 2 (1/10) (1/2) (-100) 100
  humidity_controller : PIDController := mkPID (3/2) (1/20) (3/10) (-100) 100
  co2_controller : PIDController := mkPID (1/2) (1/50) (1/10) 0 100
  history : List DomeState := []
deriving DecidableEq, Repr

/-- Boolean equality test `level == AlertLevel.EMERGENCY` on the enum. -/
def isEmergencyLevel : AlertLevel → Bool
  | AlertLevel.NORMAL => false
  | AlertLevel.WARNING => false
  | AlertLevel.CRITICAL => false
  | AlertLevel.EMERGENCY => true

/-- Embeds the generator expression
`any(alert[0] == AlertLevel.EMERGENCY for alert in alerts)` used in
`update_control`. -/
def hasEmergency (alerts : List (AlertLevel × AlertMsg)) : Bool :=
  alerts.any fun a => isEmergencyLevel a.1

/-- Embeds `AIEnvironmentalController.calculate_temperature_control`;
returns the controller object (with the mutated `temp_controller`) and the
pair `(heater_power_percent, cooler_active)`. -/
def AIEnvironmentalController.calculate_temperature_control
    (self : AIEnvironmentalController) (current setpoint dt : ℚ) :
    AIEnvironmentalController × (ℚ × Bool) :=
  let r := self.temp_controller.update setpoint current dt
  let self1 := { self with temp_controller := r.1 }
  let control_output := r.2
  (self1,
    if control_output > 0 then (control_output, false)
    else (0, decide (control_output < 0)))

/-- Embeds `AIEnvironmentalController.calculate_humidity_control`;
returns the controller object (with the mutated `humidity_controller`) and
the pair `(misting_rate, vent_position)`. -/
def AIEnvironmentalController.calculate_humidity_control
    (self : AIEnvironmentalController) (current setpoint dt : ℚ) :
    AIEnvironmentalController × (ℚ × ℚ) :=
  let r := self.humidity_controller.update setpoint current dt
  let self1 := { self with humidity_controller := r.1 }
  let control_output := r.2
  (self1,
    if control_output > 0 then (control_output * (1/2), 0)
    else (0, min |control_output| 50))

/-- Embeds `AIEnvironmentalController.calculate_co2_control`;
returns the controller object (with the mutated `co2_controller`) and the
CO2 injection rate. -/
def AIEnvironmentalController.calculate_co2_control
    (self : AIEnvironmentalController) (current setpoint dt : ℚ) :
    AIEnvironmentalController × ℚ :=
  let r := self.co2_controller.update setpoint current dt
  ({ self with co2_controller := r.1 }, max 0 (r.2 * (1/10)))

/-- Embeds `AIEnvironmentalController.calculate_lighting_control` (the
method reads no instance state, so it is a plain function here). -/
def calculate_lighting_control (current_hour photoperiod : ℚ) : ℚ :=
  let hour_in_cycle := pymod current_hour 24
  if hour_in_cycle < photoperiod then
    if hour_in_cycle < 1 then hour_in_cycle * 100
    else if hour_in_cycle > photoperiod - 1 then (photoperiod - hour_in_cycle) * 100
    else 100
  else 0

/-- Embeds `AIEnvironmentalController._emergency_response`. -/
def emergency_response : ControlActions :=
  { heater_power_percent := 0
    cooler_active := false
    misting_rate_ml_min := 0
    vent_position_percent := 100
    co2_injection_rate_ml_min := 0
    led_power_percent := 0
    circulation_fan_rpm := 2000 }

/-- Embeds `AIEnvironmentalController.update_control`; returns the mutated
controller object and the returned `ControlActions`. -/
def AIEnvironmentalController.update_control
    (self : AIEnvironmentalController) (dt : ℚ) :
    AIEnvironmentalController × ControlActions :=
  let sensors := self.state.sensors
  let setpoints := self.state.setpoints
  let alerts := check_alerts sensors setpoints
  let self1 := { self with state := { self.state with alerts := alerts } }
  if hasEmergency alerts then
    ({ self1 with state := { self1.state with mode := ControlMode.EMERGENCY } },
      emergency_response)
  else
    let tr := self1.calculate_temperature_control
        sensors.temperature_c setpoints.temperature_c dt
    let heater := tr.2.1
    let cooler := tr.2.2
    let hr := tr.1.calculate_humidity_control
        sensors.humidity_percent setpoints.humidity_percent dt
    let misting := hr.2.1
    let venting := hr.2.2
    let cr := hr.1.calculate_co2_control sensors.co2_ppm setpoints.co2_ppm dt
    let co2_injection := cr.2
    let led_power := calculate_lighting_control
        (sensors.timestamp / 3600) setpoints.photoperiod_hours
    let temp_error := |sensors.temperature_c - setpoints.temperature_c|
    let fan_speed := 500 + min (temp_error * 100) 1500
    let actions : ControlActions :=
      { heater_power_percent := heater
        cooler_active := cooler
        misting_rate_ml_min := misting
        vent_position_percent := venting
        co2_injection_rate_ml_min := co2_injection
        led_power_percent := led_power
        circulation_fan_rpm := fan_speed }
    let energy := heater * 2 + (if cooler then (60:ℚ) else 0)
        + led_power * 1 + fan_speed * (1/50)
    ({ cr.1 with
        state := { cr.1.state with
          actions := actions, energy_consumption_w := energy } },
      actions)

/-- Embeds `AIEnvironmentalController.simulate_step`: control update, the
physics model, timestamp advance, history append (the appended record is a
structural snapshot of the state, as `asdict` takes in the source). -/
def AIEnvironmentalController.simulate_step
    (self : AIEnvironmentalController) (dt : ℚ) : AIEnvironmentalController :=
  let r := self.update_control dt
  let self1 := r.1
  let actions := r.2
  let sensors := self1.state.sensors
  let temp_change := actions.heater_power_percent * (1/1000)
      - (if actions.cooler_active then (1/500) else 0)
      - (sensors.temperature_c - (-20)) * (1/10000)
  let sensors := { sensors with
    temperature_c := sensors.temperature_c + temp_change * dt }
  let humidity_change := actions.misting_rate_ml_min * (1/20)
      - actions.vent_position_percent * (1/1000)
      - sensors.humidity_percent * (1/2000)
  let sensors := { sensors with
    humidity_percent := npClip (sensors.humidity_percent + humidity_change * dt) 0 100 }
  let co2_change := actions.co2_injection_rate_ml_min * 10 - 5
      - actions.vent_position_percent * (1/2)
  let sensors := { sensors with
    co2_ppm := max 0 (sensors.co2_ppm + co2_change * dt / 60) }
  let sensors :=
    if actions.led_power_percent > 50 then
      { sensors with o2_percent := sensors.o2_percent + (1/10000) * dt }
    else sensors
  let sensors := { sensors with timestamp := sensors.timestamp + dt }
  let self2 := { self1 with state := { self1.state with sensors := sensors } }
  { self2 with history := self2.history ++ [self2.state] }

/-- Embeds `AIEnvironmentalController.run_simulation`:
`steps = int(duration_hours * 3600 / dt)` iterations of `simulate_step`. -/
def AIEnvironmentalController.run_simulation
    (self : AIEnvironmentalController) (duration_hours dt : ℚ) :
    AIEnvironmentalController :=
  let steps := (pyInt (duration_hours * 3600 / dt)).toNat
  (fun c => AIEnvironmentalController.simulate_step c dt)^[steps] self

/-- Embeds `AIEnvironmentalController.run_simulation` as a fallible call (a
Python method either returns or raises): the source contains no raise, so
every input yields `ok`. -/
def AIEnvironmentalController.run_simulation_checked
    (self : AIEnvironmentalController) (duration_hours dt : ℚ) :
    Except String AIEnvironmentalController :=
  Except.ok (self.run_simulation duration_hours dt)

/-- Applies a finite sequence of `update` calls, each given as a triple
`(setpoint, measured, dt)`, to a PID controller. -/
def applyCalls (c : PIDController) (calls : List (ℚ × ℚ × ℚ)) : PIDController :=
  calls.foldl (fun c t => (c.update t.1 t.2.1 t.2.2).1) c

/-- Formalises C8's description of the lighting schedule: hour wrapped
mod 24, then the four cases in the order the claim lists them (sunrise ramp,
sunset ramp, full power, lights off). -/
def lightingClaim (current_hour photoperiod : ℚ) : ℚ :=
  let hour := pymod current_hour 24
  if hour < 1 ∧ hour < photoperiod then hour * 100
  else if photoperiod - 1 < hour ∧ hour < photoperiod then
    (photoperiod - hour) * 100
  else if 1 ≤ hour ∧ hour ≤ photoperiod - 1 then 100
  else 0

/-- Instantaneous energy draw of an actuator command: the expression
computed inline in `update_control`
(`heater*2.0 + (60 if cooler else 0) + led*1.0 + fan*0.02`). -/
def energyFormula (a : ControlActions) : ℚ :=
  a.heater_power_percent * 2 + (if a.cooler_active then (60:ℚ) else 0)
    + a.led_power_percent * 1 + a.circulation_fan_rpm * (1/50)

/-- Concrete controller state with low oxygen (10% < 18%). -/
def c1_input : AIEnvironmentalController :=
  { state := { sensors := { o2_percent := 10 } } }

/-- Concrete controller state whose sensors are all inside their physical
domains, with the LEDs scheduled above 50% (simulated hour 8). -/
def c2_input : AIEnvironmentalController :=
  { state := { sensors := { o2_percent := 99999/1000, timestamp := 28800 } } }

/-- A freshly constructed controller (all defaults, empty history). -/
def c3_input : AIEnvironmentalController := {}

/-- Concrete controller state with low oxygen and a nonzero stored energy
value from a previous step. -/
def c4_input : AIEnvironmentalController :=
  { state := { sensors := { o2_percent := 10 }, energy_consumption_w := 999 } }

/-- Concrete controller state with low oxygen and a nontrivial previously
stored actuator command and energy value. -/
def c10_input : AIEnvironmentalController :=
  { state :=
      { sensors := { o2_percent := 17 },
        actions := { heater_power_percent := 7, circulation_fan_rpm := 600 },
        energy_consumption_w := 123 } }

/-! Helper lemmas about the clip primitive. -/

lemma npClip_le_hi (x lo hi : ℚ) : npClip x lo hi ≤ hi := min_le_right _ _

lemma le_npClip_of_le (x lo hi : ℚ) (h : lo ≤ hi) : lo ≤ npClip x lo hi :=
  le_min (le_max_right _ _) h

/-- C5: for every PID controller state, a call `update(setpoint, measured, dt)`
with `dt ≤ 0` leaves the controller state (in particular `integral` and
`last_error`) unchanged, contributes a zero derivative term, and returns
`clamp(kp*(setpoint - measured) + ki*integral, output_min, output_max)` with
the previously accumulated integral; the function is total, so no exception
is raised. -/
theorem pid_update_nonpositive_dt :
    ∀ (c : PIDController) (setpoint measured dt : ℚ), dt ≤ 0 →
      c.update setpoint measured dt =
        (c, npClip (c.kp * (setpoint - measured) + c.ki * c.integral)
          c.output_min c.output_max) := by
  intro c s m dt h
  simp [PIDController.update, h]

/-- Witness for C5: a concrete controller with accumulated integral 0,
called at `dt = 0`. -/
theorem pid_update_nonpositive_dt_witness :
    ((0:ℚ) ≤ 0) ∧
      (mkPID 2 3 4 0 100).update 10 1 0 =
        (mkPID 2 3 4 0 100, npClip (2 * (10 - 1) + 3 * 0) 0 100) :=
  ⟨le_refl 0, pid_update_nonpositive_dt (mkPID 2 3 4 0 100) 10 1 0 (le_refl 0)⟩

lemma update_integral_bounds (c : PIDController) (s m dt : ℚ)
    (h1 : -100 ≤ c.integral) (h2 : c.integral ≤ 100) :
    -100 ≤ (c.update s m dt).1.integral ∧ (c.update s m dt).1.integral ≤ 100 := by
  by_cases h : dt ≤ 0
  · simpa [PIDController.update, h] using ⟨h1, h2⟩
  · simp only [PIDController.update, h, if_false, npClip]
    exact ⟨le_min (le_max_right _ _) (by norm_num), min_le_right _ _⟩

lemma applyCalls_integral_bounds (calls : List (ℚ × ℚ × ℚ)) :
    ∀ c : PIDController, -100 ≤ c.integral → c.integral ≤ 100 →
      -100 ≤ (applyCalls c calls).integral ∧ (applyCalls c calls).integral ≤ 100 := by
  induction calls with
  | nil => intro c h1 h2; exact ⟨h1, h2⟩
  | cons t ts ih =>
      intro c h1 h2
      have hb := update_integral_bounds c t.1 t.2.1 t.2.2 h1 h2
      simpa [applyCalls, List.foldl_cons] using ih _ hb.1 hb.2

/-- C7: starting from construction (`mkPID`, integral 0) or from `reset()`
(integral 0), after any finite sequence of `update` calls with arbitrary
rational arguments the integral accumulator lies in the anti-windup band
`[-100, 100]`. -/
theorem pid_integral_antiwindup :
    ∀ (kp ki kd omin omax : ℚ) (calls : List (ℚ × ℚ × ℚ)),
      (-100 ≤ (applyCalls (mkPID kp ki kd omin omax) calls).integral ∧
        (applyCalls (mkPID kp ki kd omin omax) calls).integral ≤ 100) ∧
      ∀ c : PIDController,
        -100 ≤ (applyCalls c.reset calls).integral ∧
          (applyCalls c.reset calls).integral ≤ 100 := by
  intro kp ki kd omin omax calls
  constructor
  · exact applyCalls_integral_bounds calls _ (by norm_num [mkPID]) (by norm_num [mkPID])
  · intro c
    exact applyCalls_integral_bounds calls _
      (by norm_num [PIDController.reset]) (by norm_num [PIDController.reset])

/-- C8: `calculate_lighting_control` wraps the hour mod 24 and then realises
exactly the claim's piecewise schedule; in particular, for photoperiod 16,
hour 0.5 gives 50, hour 8 gives 100, hour 15.5 gives 50 and hour 20 gives 0. -/
theorem lighting_control_matches_claim :
    (∀ current_hour photoperiod : ℚ,
      calculate_lighting_control current_hour photoperiod =
        lightingClaim current_hour photoperiod) ∧
    calculate_lighting_control (1/2) 16 = 50 ∧
    calculate_lighting_control 8 16 = 100 ∧
    calculate_lighting_control (31/2) 16 = 50 ∧
    calculate_lighting_control 20 16 = 0 := by
  constructor
  · intro h P
    simp only [calculate_lighting_control, lightingClaim, gt_iff_lt]
    set x := pymod h 24 with hx
    by_cases hP : x < P
    · by_cases h1 : x < 1
      · rw [if_pos hP, if_pos h1, if_pos ⟨h1, hP⟩]
      · by_cases h2 : P - 1 < x
        · rw [if_pos hP, if_neg h1, if_pos h2, if_neg fun hc => h1 hc.1,
            if_pos ⟨h2, hP⟩]
        · rw [if_pos hP, if_neg h1, if_neg h2, if_neg fun hc => h1 hc.1,
            if_neg fun hc => h2 hc.1, if_pos ⟨not_lt.mp h1, not_lt.mp h2⟩]
    · rw [if_neg hP, if_neg fun hc => hP hc.2, if_neg fun hc => hP hc.2,
        if_neg fun hc => hP (lt_of_le_of_lt hc.2 (by linarith))]
  · refine ⟨?_, ?_, ?_, ?_⟩ <;> norm_num [calculate_lighting_control, pymod]

lemma pyInt_toNat_of_nonpos (q : ℚ) (h : q ≤ 0) : (pyInt q).toNat = 0 := by
  unfold pyInt
  split
  · next h0 =>
      have : q = 0 := le_antisymm h h0
      simp [this]
  · next h0 =>
      refine Int.toNat_eq_zero.mpr ?_
      have : (0:ℤ) ≤ ⌊-q⌋ := Int.floor_nonneg.mpr (by linarith)
      omega

/-- C9 counterexample: constructing a PID controller with
`output_min = 10 > 0 = output_max` raises no error (the constructor returns
normally), and `run_simulation` with the non-positive duration `-1` hours
raises no error either (it returns the controller with no step executed). -/
theorem no_failfast_validation_counterexample :
    ((10:ℚ) > (0:ℚ)) ∧
    PIDController.init 1 0 0 10 0 = Except.ok (mkPID 1 0 0 10 0) ∧
    AIEnvironmentalController.run_simulation_checked {} (-1) 60 =
      Except.ok ({} : AIEnvironmentalController) := by
  refine ⟨by norm_num, rfl, ?_⟩
  have h0 : (pyInt ((-1) * 3600 / 60)).toNat = 0 :=
    pyInt_toNat_of_nonpos _ (by norm_num)
  simp only [AIEnvironmentalController.run_simulation_checked,
    AIEnvironmentalController.run_simulation, h0, Function.iterate_zero_apply]

/-- C9 amended: the code performs no configuration validation at all:
`PIDController.__init__` succeeds for every gain/bound combination
(including `output_min > output_max`), and `run_simulation` never raises;
with non-positive `duration_hours` and positive `dt` it executes zero steps
and returns the controller unchanged. -/
theorem no_failfast_validation :
    (∀ kp ki kd omin omax : ℚ,
      PIDController.init kp ki kd omin omax =
        Except.ok (mkPID kp ki kd omin omax)) ∧
    (∀ (c : AIEnvironmentalController) (d dt : ℚ), d ≤ 0 → 0 < dt →
      c.run_simulation_checked d dt = Except.ok c) := by
  constructor
  · intro kp ki kd omin omax; rfl
  · intro c d dt hd hdt
    have hq : d * 3600 / dt ≤ 0 := by
      have h1 : d * 3600 ≤ 0 := by nlinarith
      exact div_nonpos_iff.mpr (Or.inr ⟨h1, hdt.le⟩)
    simp [AIEnvironmentalController.run_simulation_checked,
      AIEnvironmentalController.run_simulation, pyInt_toNat_of_nonpos _ hq]

/-- Witness for C9 (amended): concrete invalid configurations go through
without error. -/
theorem no_failfast_validation_witness :
    PIDController.init 1 0 0 10 0 = Except.ok (mkPID 1 0 0 10 0) ∧
    ((-2:ℚ) ≤ 0) ∧ ((0:ℚ) < 60) ∧
    AIEnvironmentalController.run_simulation_checked {} (-2) 60 =
      Except.ok ({} : AIEnvironmentalController) :=
  ⟨no_failfast_validation.1 1 0 0 10 0, by norm_num, by norm_num,
    no_failfast_validation.2 {} (-2) 60 (by norm_num) (by norm_num)⟩

/-- C1: whenever an Emergency-severity alert is raised for the current
sensors/setpoints (in particular whenever `o2_percent < 18`), `update_control`
sets the mode to Emergency and returns exactly the fixed safe-state command
(heater 0, cooler off, misting 0, vent 100, CO2 injection 0, LED 0, fan
2000 RPM), for every controller configuration, leaving all three PID
controller states untouched (no PID update or lighting computation runs). -/
theorem update_control_emergency_override :
    (∀ (c : AIEnvironmentalController) (dt : ℚ),
      hasEmergency (check_alerts c.state.sensors c.state.setpoints) = true →
        (c.update_control dt).2 =
          { heater_power_percent := 0, cooler_active := false,
            misting_rate_ml_min := 0, vent_position_percent := 100,
            co2_injection_rate_ml_min := 0, led_power_percent := 0,
            circulation_fan_rpm := 2000 } ∧
        (c.update_control dt).1.state.mode = ControlMode.EMERGENCY ∧
        (c.update_control dt).1.temp_controller = c.temp_controller ∧
        (c.update_control dt).1.humidity_controller = c.humidity_controller ∧
        (c.update_control dt).1.co2_controller = c.co2_controller) ∧
    (∀ (s : DomeSensors) (sp : EnvironmentalSetpoints),
      s.o2_percent < 18 → hasEmergency (check_alerts s sp) = true) := by
  constructor
  · intro c dt h
    simp [AIEnvironmentalController.update_control, h, emergency_response]
  · intro s sp h
    simp [check_alerts, hasEmergency, isEmergencyLevel, h]

/-- Witness for C1 at a concrete controller with O2 at 10% (< 18%). -/
theorem update_control_emergency_override_witness :
    hasEmergency (check_alerts c1_input.state.sensors c1_input.state.setpoints)
        = true ∧
    (c1_input.update_control 60).2 =
      { heater_power_percent := 0, cooler_active := false,
        misting_rate_ml_min := 0, vent_position_percent := 100,
        co2_injection_rate_ml_min := 0, led_power_percent := 0,
        circulation_fan_rpm := 2000 } ∧
    (c1_input.update_control 60).1.state.mode = ControlMode.EMERGENCY := by
  have he := update_control_emergency_override.2 c1_input.state.sensors
    c1_input.state.setpoints (by norm_num [c1_input])
  have h := update_control_emergency_override.1 c1_input 60 he
  exact ⟨he, h.1, h.2.1⟩

/-- C4 amended: on every non-Emergency step the stored
`energy_consumption_w` equals the energy formula evaluated on the actuator
command applied in that step; on Emergency steps `update_control` returns
before the assignment, so the stored value is unchanged from the previous
step. The formula at heater 50 / cooler off / LED 100 / fan 1000 gives
exactly 220 W. -/
theorem energy_accounting :
    ∀ (c : AIEnvironmentalController) (dt : ℚ),
      (if hasEmergency (check_alerts c.state.sensors c.state.setpoints) then
        (c.update_control dt).1.state.energy_consumption_w =
          c.state.energy_consumption_w
      else
        (c.update_control dt).1.state.energy_consumption_w =
          energyFormula (c.update_control dt).2) ∧
      energyFormula
          { heater_power_percent := 50, cooler_active := false,
            misting_rate_ml_min := 0, vent_position_percent := 0,
            co2_injection_rate_ml_min := 0, led_power_percent := 100,
            circulation_fan_rpm := 1000 } = 220 := by
  intro c dt
  constructor
  · split
    · next h => simp [AIEnvironmentalController.update_control, h]
    · next h =>
        simp [AIEnvironmentalController.update_control, h, energyFormula]
  · norm_num [energyFormula]

/-- C4 counterexample: on an Emergency step (O2 at 10%, previous stored
energy 999 W) the stored energy after the control phase is still 999 W,
which differs from the energy formula evaluated on the safe-state command
actually applied (40 W). -/
theorem energy_accounting_emergency_counterexample :
    (c4_input.update_control 60).1.state.energy_consumption_w ≠
      energyFormula ((c4_input.update_control 60).2) := by
  norm_num [c4_input, AIEnvironmentalController.update_control, check_alerts,
    hasEmergency, isEmergencyLevel, emergency_response, energyFormula]

/-- C10: when an Emergency-severity alert is present, `update_control`
returns the safe-state command but leaves the stored `DomeState.actions`
and `DomeState.energy_consumption_w` unchanged from the previous step, and
the history record appended by `simulate_step` therefore snapshots the
previous step's actuator command and energy, not the safe-state command
applied to the physics. -/
theorem emergency_skips_action_energy_writes :
    ∀ (c : AIEnvironmentalController) (dt : ℚ),
      hasEmergency (check_alerts c.state.sensors c.state.setpoints) = true →
        (c.update_control dt).1.state.actions = c.state.actions ∧
        (c.update_control dt).1.state.energy_consumption_w =
          c.state.energy_consumption_w ∧
        (c.update_control dt).2 = emergency_response ∧
        ∃ r : DomeState, (c.simulate_step dt).history = c.history ++ [r] ∧
          r.actions = c.state.actions ∧
          r.energy_consumption_w = c.state.energy_consumption_w := by
  intro c dt h
  refine ⟨?_, ?_, ?_, (c.simulate_step dt).state, ?_, ?_, ?_⟩
  · simp [AIEnvironmentalController.update_control, h]
  · simp [AIEnvironmentalController.update_control, h]
  · simp [AIEnvironmentalController.update_control, h]
  · simp [AIEnvironmentalController.simulate_step,
      AIEnvironmentalController.update_control, h]
  · simp [AIEnvironmentalController.simulate_step,
      AIEnvironmentalController.update_control, h]
  · simp [AIEnvironmentalController.simulate_step,
      AIEnvironmentalController.update_control, h]

/-- Witness for C10 at a concrete Emergency state (O2 at 17%) whose stored
command and energy are nontrivial. -/
theorem emergency_skips_action_energy_writes_witness :
    (c10_input.update_control 60).1.state.actions = c10_input.state.actions ∧
    (c10_input.update_control 60).1.state.energy_consumption_w =
      c10_input.state.energy_consumption_w ∧
    (c10_input.update_control 60).2 = emergency_response := by
  have h := emergency_skips_action_energy_writes c10_input 60
    (by norm_num [c10_input, check_alerts, hasEmergency, isEmergencyLevel])
  exact ⟨h.1, h.2.1, h.2.2.1⟩

/-- C2 amended: after every `simulate_step` the humidity reading lies in
[0, 100] and the CO2 reading is nonnegative (both are clamped by the
physical update); temperature and O2 are not clamped. -/
theorem simulate_step_clamps_humidity_co2 :
    ∀ (c : AIEnvironmentalController) (dt : ℚ),
      0 ≤ (c.simulate_step dt).state.sensors.humidity_percent ∧
      (c.simulate_step dt).state.sensors.humidity_percent ≤ 100 ∧
      0 ≤ (c.simulate_step dt).state.sensors.co2_ppm := by
  intro c dt
  simp only [AIEnvironmentalController.simulate_step]
  split
  · exact ⟨le_npClip_of_le _ _ _ (by norm_num), npClip_le_hi _ _ _,
      le_max_left _ _⟩
  · exact ⟨le_npClip_of_le _ _ _ (by norm_num), npClip_le_hi _ _ _,
      le_max_left _ _⟩

/-- C2 counterexample: from sensors inside every physical domain
(O2 = 99.999%, at simulated hour 8 so the LEDs run above 50%), one
`simulate_step` of 60 s leaves the O2 reading at 100.005% — above 100% —
because the O2 (and temperature) updates are not clamped. -/
theorem simulate_step_o2_exceeds_domain :
    (c2_input.simulate_step 60).state.sensors.o2_percent > 100 := by
  norm_num [c2_input, AIEnvironmentalController.simulate_step,
    AIEnvironmentalController.update_control, check_alerts, hasEmergency,
    isEmergencyLevel, AIEnvironmentalController.calculate_temperature_control,
    AIEnvironmentalController.calculate_humidity_control,
    AIEnvironmentalController.calculate_co2_control,
    calculate_lighting_control, pymod, PIDController.update, mkPID, npClip,
    emergency_response]

lemma update_control_history (c : AIEnvironmentalController) (dt : ℚ) :
    (c.update_control dt).1.history = c.history := by
  simp only [AIEnvironmentalController.update_control,
    AIEnvironmentalController.calculate_temperature_control,
    AIEnvironmentalController.calculate_humidity_control,
    AIEnvironmentalController.calculate_co2_control]
  split <;> rfl

lemma simulate_step_history_snoc (c : AIEnvironmentalController) (dt : ℚ) :
    (c.simulate_step dt).history = c.history ++ [(c.simulate_step dt).state] := by
  simp only [AIEnvironmentalController.simulate_step]
  rw [update_control_history]

lemma iterate_history_length (dt : ℚ) (n : ℕ) :
    ∀ c : AIEnvironmentalController,
      ((fun c => AIEnvironmentalController.simulate_step c dt)^[n] c).history.length
        = c.history.length + n := by
  induction n with
  | zero => intro c; simp
  | succ m ih =>
      intro c
      rw [Function.iterate_succ_apply, ih]
      have := simulate_step_history_snoc c dt
      simp [this]
      omega

/-- C3 amended: `run_simulation(duration_hours, dt)` executes the step
function exactly `int(duration_hours * 3600 / dt)` times — Python's `int()`
truncation, not the ceiling — appending one history record per step in
order, so the history grows by exactly that number of records. -/
theorem run_simulation_step_count :
    ∀ (c : AIEnvironmentalController) (duration_hours dt : ℚ),
      (c.run_simulation duration_hours dt).history.length =
        c.history.length + (pyInt (duration_hours * 3600 / dt)).toNat ∧
      (c.simulate_step dt).history = c.history ++ [(c.simulate_step dt).state] := by
  intro c d dt
  exact ⟨iterate_history_length dt _ c, simulate_step_history_snoc c dt⟩

/-- C3 counterexample: with `duration_hours = 1` and `dt = 7200` the quotient
`1 * 3600 / 7200` is 0.5, whose ceiling is 1, yet `run_simulation` executes
zero steps and the history stays empty. -/
theorem run_simulation_not_ceil :
    (c3_input.run_simulation 1 7200).history.length = 0 ∧
    ⌈(1 * 3600 / 7200 : ℚ)⌉ = 1 := by
  constructor
  · have h0 : (pyInt (1 * 3600 / 7200)).toNat = 0 := by
      norm_num [pyInt]
    simp only [AIEnvironmentalController.run_simulation, h0,
      Function.iterate_zero_apply]
    simp [c3_input]
  · have h1 : ((1:ℚ) * 3600 / 7200) = 1/2 := by norm_num
    rw [h1, Int.ceil_eq_iff]
    norm_num

lemma mem_ite_singleton {p : Prop} [Decidable p] (a b : AlertLevel × AlertMsg) :
    (a ∈ if p then [b] else []) ↔ p ∧ a = b := by
  split <;> simp_all

lemma mem_ite_pair {p q : Prop} [Decidable p] [Decidable q]
    (a b c : AlertLevel × AlertMsg) :
    (a ∈ if p then [b] else if q then [c] else []) ↔
      (p ∧ a = b) ∨ (¬p ∧ q ∧ a = c) := by
  split_ifs <;> simp_all

/-- C6: `check_alerts` is a pure function of (sensors, setpoints) raising a
Critical temperature alert iff |temperature error| > 3×tolerance, a Warning
temperature alert iff 2×tolerance < |temperature error| ≤ 3×tolerance, a
Warning humidity alert iff |humidity error| > 2×tolerance, a Critical CO2
alert iff co2_ppm > 5000, a Warning CO2 alert iff co2_ppm < 200, an
Emergency O2 alert iff o2_percent < 18, a Critical O2 alert iff
o2_percent > 23; in-tolerance readings raise no alert (and the independent
iffs show that several alerts may coexist in one step). -/
theorem check_alerts_characterization :
    ∀ (s : DomeSensors) (sp : EnvironmentalSetpoints),
      ((AlertLevel.CRITICAL, AlertMsg.tempCritical) ∈ check_alerts s sp ↔
        |s.temperature_c - sp.temperature_c| > 3 * sp.temperature_tolerance) ∧
      ((AlertLevel.WARNING, AlertMsg.tempWarning) ∈ check_alerts s sp ↔
        (2 * sp.temperature_tolerance < |s.temperature_c - sp.temperature_c| ∧
          |s.temperature_c - sp.temperature_c| ≤ 3 * sp.temperature_tolerance)) ∧
      ((AlertLevel.WARNING, AlertMsg.humidityWarning) ∈ check_alerts s sp ↔
        |s.humidity_percent - sp.humidity_percent| > 2 * sp.humidity_tolerance) ∧
      ((AlertLevel.CRITICAL, AlertMsg.co2High) ∈ check_alerts s sp ↔
        s.co2_ppm > 5000) ∧
      ((AlertLevel.WARNING, AlertMsg.co2Low) ∈ check_alerts s sp ↔
        s.co2_ppm < 200) ∧
      ((AlertLevel.EMERGENCY, AlertMsg.o2Low) ∈ check_alerts s sp ↔
        s.o2_percent < 18) ∧
      ((AlertLevel.CRITICAL, AlertMsg.o2High) ∈ check_alerts s sp ↔
        s.o2_percent > 23) ∧
      ((|s.temperature_c - sp.temperature_c| ≤ 2 * sp.temperature_tolerance ∧
        |s.humidity_percent - sp.humidity_percent| ≤ 2 * sp.humidity_tolerance ∧
        200 ≤ s.co2_ppm ∧ s.co2_ppm ≤ 5000 ∧
        18 ≤ s.o2_percent ∧ s.o2_percent ≤ 23) →
        check_alerts s sp = []) := by
  intro s sp
  refine ⟨?_, ?_, ?_, ?_, ?_, ?_, ?_, ?_⟩
  · simp [check_alerts, List.mem_append, mem_ite_singleton, mem_ite_pair]
    constructor <;> intro <;> linarith
  · simp [check_alerts, List.mem_append, mem_ite_singleton, mem_ite_pair, not_lt]
    constructor
    · rintro ⟨h1, h2⟩
      exact ⟨by linarith, by linarith⟩
    · rintro ⟨h1, h2⟩
      exact ⟨by linarith, by linarith⟩
  · simp [check_alerts, List.mem_append, mem_ite_singleton, mem_ite_pair]
    constructor <;> intro <;> linarith
  · simp [check_alerts, List.mem_append, mem_ite_singleton, mem_ite_pair]
  · simp [check_alerts, List.mem_append, mem_ite_singleton, mem_ite_pair, not_lt]
    intro h
    linarith
  · simp [check_alerts, List.mem_append, mem_ite_singleton, mem_ite_pair]
  · simp [check_alerts, List.mem_append, mem_ite_singleton, mem_ite_pair, not_lt]
    intro h
    linarith
  · rintro ⟨h1, h2, h3, h4, h5, h6⟩
    have habs : (0:ℚ) ≤ |s.temperature_c - sp.temperature_c| := abs_nonneg _
    simp only [check_alerts]
    rw [if_neg (by rw [not_lt]; linarith :
          ¬ |s.temperature_c - sp.temperature_c| > sp.temperature_tolerance * 3),
      if_neg (by rw [not_lt]; linarith :
          ¬ |s.temperature_c - sp.temperature_c| > sp.temperature_tolerance * 2),
      if_neg (by rw [not_lt]; linarith :
          ¬ |s.humidity_percent - sp.humidity_percent| > sp.humidity_tolerance * 2),
      if_neg (not_lt.mpr h4), if_neg (not_lt.mpr h3),
      if_neg (not_lt.mpr h5), if_neg (not_lt.mpr h6)]
    rfl

/-- Witness for C6: the default sensors and setpoints are in tolerance and
produce no alert. -/
theorem check_alerts_characterization_witness :
    check_alerts {} {} = [] :=
  (check_alerts_characterization {} {}).2.2.2.2.2.2.2 (by norm_num)

end EnvControl
